import Mathlib

/-!
# A shallow embedding of the libmdbx-rs cursor/iterator layer

This file embeds the safe cursor/iterator layer of `libmdbx-rs`
(`src/cursor.rs`, `src/database.rs`) in Lean 4 and proves the stated
properties of its control flow.

The underlying storage engine (libmdbx, reached through the `ffi`
bindings) is an external collaborator: every engine call returns a
numeric status code and, for positioning calls, writes a key slot and a
data slot (`MDBX_val` pairs).  We model one engine answer as an explicit
oracle value (`GetReply`) that is passed to the embedded function, so
the theorems quantify over every possible engine behaviour.

Pieces of the crate that are not part of the two embedded source files
(`error.rs` with `Error`/`mdbx_result`, `util.rs` with `freeze_bytes`)
are modelled from the specification; their doc comments say so.
-/

namespace LibmdbxRs

/-! ## Engine-defined constants

The numeric status codes are engine-defined (they come through the
generated bindings, not the embedded sources).  Only three classes of
status matter to this layer: success, the two "nothing there" codes
`MDBX_NOTFOUND`/`MDBX_ENODATA`, and everything else.  The concrete
numbers below follow libmdbx (`MDBX_ENODATA` is the platform `ENODATA`
or a fallback constant; only its distinctness from the other two codes
matters here). -/

def MDBX_SUCCESS : Int := 0

def MDBX_NOTFOUND : Int := -30798

def MDBX_ENODATA : Int := 9919

/-- The engine's cursor positioning opcodes, an opaque closed
enumeration consumed by this layer. -/
inductive CursorOp where
  | FIRST
  | FIRST_DUP
  | GET_BOTH
  | GET_BOTH_RANGE
  | GET_CURRENT
  | GET_MULTIPLE
  | LAST
  | LAST_DUP
  | NEXT
  | NEXT_DUP
  | NEXT_MULTIPLE
  | NEXT_NODUP
  | PREV
  | PREV_DUP
  | PREV_NODUP
  | SET
  | SET_KEY
  | SET_RANGE
deriving DecidableEq, Repr

/-- `MDBX_val`: a raw (length, base pointer) view exchanged with the
engine.  Pointers are modelled as natural numbers, `0` standing for the
null pointer. -/
structure MDBX_val where
  iov_len : Nat
  iov_base : Nat
deriving DecidableEq, Repr

/-- Modelled from the spec: `error.rs` is not among the embedded
sources.  The spec's §7 taxonomy distinguishes `NotFound` (non-fatal,
used as the end-of-iteration signal) from every other mapped status
kind; the cursor layer itself only ever pattern-matches on `NotFound`
versus "any other error", so all remaining kinds are modelled as
`other code`, keeping the originating status code. -/
inductive Error where
  | notFound
  | other (code : Int)
deriving DecidableEq, Repr

/-- Modelled from the spec: the numeric-status-to-error-kind mapping of
`error.rs` (`Error::from_err_code`).  `MDBX_NOTFOUND` maps to
`NotFound`; any other status maps to its own kind. -/
def Error.from_err_code (code : Int) : Error :=
  if code = MDBX_NOTFOUND then .notFound else .other code

/-- Modelled from the spec: `mdbx_result` of `error.rs` turns an engine
status code into a result, mapping `MDBX_SUCCESS` to success and every
other status through `Error::from_err_code`. -/
def mdbx_result (code : Int) : Except Error Unit :=
  if code = MDBX_SUCCESS then .ok () else .error (Error.from_err_code code)

/-- A frozen byte view (the payload of `lifetimed_bytes::Bytes`),
modelled as the byte list it lets the caller read. -/
abbrev Bytes := List Nat

deriving instance DecidableEq for Except

/-- One engine answer to an `mdbx_cursor_get` call: the status code,
the key and data slots as the engine leaves them, and — since
`freeze_bytes` (`util.rs`, modelled from the spec as the fallible
zero-copy view constructor) is itself an external step — the outcome of
freezing each slot. -/
structure GetReply where
  status : Int
  keyVal : MDBX_val
  dataVal : MDBX_val
  freezeKey : Except Error Bytes
  freezeData : Except Error Bytes
deriving DecidableEq, Repr

/-- `slice_to_val` (cursor.rs): an optional byte slice becomes an
`MDBX_val`, `None` becoming the null value. -/
def slice_to_val : Option MDBX_val → MDBX_val
  | some v => v
  | none => ⟨0, 0⟩

/-! ## `Cursor::get` -/

set_option linter.unusedVariables false in
/-- `Cursor::get` (cursor.rs): issue one positioning call with the
given opcode and optional key/data, then, on success, freeze the data
slot always and the key slot only when its base pointer moved away from
the caller-supplied one.  The engine's answer is the oracle `reply`;
the opcode `op` is forwarded to the engine and therefore only shapes
`reply`, never this layer's control flow. -/
def Cursor.get (key data : Option MDBX_val) (op : CursorOp) (reply : GetReply) :
    Except Error (Option Bytes × Bytes) :=
  let key_val := slice_to_val key
  let _data_val := slice_to_val data
  let key_ptr := key_val.iov_base
  match mdbx_result reply.status with
  | .error e => .error e
  | .ok _ =>
    let key_out : Except Error (Option Bytes) :=
      if key_ptr ≠ reply.keyVal.iov_base then
        match reply.freezeKey with
        | .error e => .error e
        | .ok b => .ok (some b)
      else .ok none
    match key_out with
    | .error e => .error e
    | .ok ko =>
      match reply.freezeData with
      | .error e => .error e
      | .ok d => .ok (ko, d)

/-! ## Cursors -/

/-- `RoCursor` (cursor.rs): a read-only cursor, owning one native
cursor resource (modelled by its handle) within one database.  The
iterator embeddings below instantiate their generic cursor parameter
`C` at this type. -/
structure RoCursor where
  cursor : Nat
  db : Nat
deriving DecidableEq, Repr

/-- `RoCursor::new_at_position` (cursor.rs): create a fresh native
cursor (`createdHandle` is the handle the engine hands back), copy the
source cursor's position into it (`copyStatus` is the engine's status
for the copy), and fail if the copy failed. -/
def RoCursor.new_at_position (other : RoCursor) (createdHandle : Nat)
    (copyStatus : Int) : Except Error RoCursor :=
  let s : RoCursor := ⟨createdHandle, other.db⟩
  match mdbx_result copyStatus with
  | .error e => .error e
  | .ok _ => .ok s

/-- The observable outcome of `<RoCursor as Clone>::clone`: either a
cursor, or a process panic (the `unwrap` on a failed position copy). -/
inductive CloneOutcome where
  | ok (c : RoCursor)
  | panicked (e : Error)
deriving DecidableEq, Repr

/-- `<RoCursor as Clone>::clone` (cursor.rs):
`Self::new_at_position(self).unwrap()` — a failed copy does not return
an error, it panics. -/
def RoCursor.clone (self : RoCursor) (createdHandle : Nat)
    (copyStatus : Int) : CloneOutcome :=
  match RoCursor.new_at_position self createdHandle copyStatus with
  | .ok c => .ok c
  | .error e => .panicked e

/-! ## Sequential iterators (`Iter` and `IntoIter`)

Both enums have the same two variants: `Err` (poisoned at
construction) and `Ok` (a live cursor plus the opcode for the next call
and the opcode for all calls after that).  `Iter` borrows its cursor,
`IntoIter` owns it; the embedding instantiates both at `RoCursor`.
`next` is state-passing: it returns the opcode issued to the engine (if
any), the produced element (if any), and the successor state. -/

/-- `Iter` (cursor.rs): the borrowed-cursor sequential iterator. -/
inductive Iter where
  | Err (e : Error)
  | Ok (cursor : RoCursor) (op : CursorOp) (next_op : CursorOp)
deriving DecidableEq, Repr

/-- `Iter::new` (cursor.rs). -/
def Iter.new (cursor : RoCursor) (op next_op : CursorOp) : Iter :=
  Iter.Ok cursor op next_op

/-- `IntoIter` (cursor.rs): the owning sequential iterator. -/
inductive IntoIter where
  | Err (e : Error)
  | Ok (cursor : RoCursor) (op : CursorOp) (next_op : CursorOp)
deriving DecidableEq, Repr

/-- `IntoIter::new` (cursor.rs). -/
def IntoIter.new (cursor : RoCursor) (op next_op : CursorOp) : IntoIter :=
  IntoIter.Ok cursor op next_op

/-- What one sequential `next()` call does: `issued` is the opcode
passed to `mdbx_cursor_get` (`none` when no engine call was made),
`item` the element the call yields (`none` is end of sequence), and
`state` the iterator state left for the following call. -/
structure SeqNext where
  issued : Option CursorOp
  item : Option (Except Error (Bytes × Bytes))
  state : Iter
deriving DecidableEq, Repr

/-- `<Iter as Iterator>::next` (cursor.rs).  In the live state the
stored `op` is swapped for `next_op` (`mem::replace`) before the engine
call; then success freezes key and data (a freeze failure becomes this
call's error element), `MDBX_NOTFOUND`/`MDBX_ENODATA` end the sequence,
and any other status becomes one error element.  In the poisoned state
the stored error is returned and nothing else happens. -/
def Iter.next (s : Iter) (reply : GetReply) : SeqNext :=
  match s with
  | .Ok cursor op next_op =>
    let s' := Iter.Ok cursor next_op next_op
    let item : Option (Except Error (Bytes × Bytes)) :=
      if reply.status = MDBX_SUCCESS then
        match reply.freezeKey with
        | .error e => some (.error e)
        | .ok k =>
          match reply.freezeData with
          | .error e => some (.error e)
          | .ok d => some (.ok (k, d))
      else if reply.status = MDBX_NOTFOUND ∨ reply.status = MDBX_ENODATA then
        none
      else
        some (.error (Error.from_err_code reply.status))
    ⟨some op, item, s'⟩
  | .Err e => ⟨none, some (.error e), .Err e⟩

/-- As `SeqNext`, for the owning iterator. -/
structure SeqNextOwned where
  issued : Option CursorOp
  item : Option (Except Error (Bytes × Bytes))
  state : IntoIter
deriving DecidableEq, Repr

/-- `<IntoIter as Iterator>::next` (cursor.rs): same body as
`<Iter as Iterator>::next`, over the owning enum. -/
def IntoIter.next (s : IntoIter) (reply : GetReply) : SeqNextOwned :=
  match s with
  | .Ok cursor op next_op =>
    let s' := IntoIter.Ok cursor next_op next_op
    let item : Option (Except Error (Bytes × Bytes)) :=
      if reply.status = MDBX_SUCCESS then
        match reply.freezeKey with
        | .error e => some (.error e)
        | .ok k =>
          match reply.freezeData with
          | .error e => some (.error e)
          | .ok d => some (.ok (k, d))
      else if reply.status = MDBX_NOTFOUND ∨ reply.status = MDBX_ENODATA then
        none
      else
        some (.error (Error.from_err_code reply.status))
    ⟨some op, item, s'⟩
  | .Err e => ⟨none, some (.error e), .Err e⟩

/-- Driving `Iter.next` through a list of engine answers: the elements
produced by the successive `next()` calls, threading the state. -/
def Iter.runItems (s : Iter) (replies : List GetReply) :
    List (Option (Except Error (Bytes × Bytes))) :=
  match replies with
  | [] => []
  | r :: rest => (Iter.next s r).item :: Iter.runItems (Iter.next s r).state rest

/-- The state left after driving `Iter.next` through a list of engine
answers. -/
def Iter.runState (s : Iter) (replies : List GetReply) : Iter :=
  match replies with
  | [] => s
  | r :: rest => Iter.runState (Iter.next s r).state rest

/-- Driving `IntoIter.next` through a list of engine answers. -/
def IntoIter.runItems (s : IntoIter) (replies : List GetReply) :
    List (Option (Except Error (Bytes × Bytes))) :=
  match replies with
  | [] => []
  | r :: rest => (IntoIter.next s r).item :: IntoIter.runItems (IntoIter.next s r).state rest

/-- The state left after driving `IntoIter.next` through a list of
engine answers. -/
def IntoIter.runState (s : IntoIter) (replies : List GetReply) : IntoIter :=
  match replies with
  | [] => s
  | r :: rest => IntoIter.runState (IntoIter.next s r).state rest

/-! ## Duplicate-group iterator (`IterDup`) -/

/-- `IterDup` (cursor.rs): the outer iterator over distinct keys, whose
elements are owning sequential iterators over one key's duplicate
group. -/
inductive IterDup where
  | Err (e : Error)
  | Ok (cursor : RoCursor) (op : CursorOp)
deriving DecidableEq, Repr

/-- `IterDup::new` (cursor.rs). -/
def IterDup.new (cursor : RoCursor) (op : CursorOp) : IterDup :=
  IterDup.Ok cursor op

/-- The observable outcome of one `IterDup::next` call: a yielded inner
iterator, the end of the outer sequence, or a process panic (the
`unwrap` on a failed cursor clone). -/
inductive DupOutcome where
  | yield (inner : IntoIter)
  | stop
  | panicked (e : Error)
deriving DecidableEq, Repr

/-- `<IterDup as Iterator>::next` (cursor.rs).  In the live state the
stored opcode is swapped for `MDBX_NEXT_NODUP` (`mem::replace`) before
the engine call; on success a read-only cursor is created at the
current position (`RoCursor::new_at_position(..).unwrap()` — the
`unwrap` panics when the clone fails) and wrapped as
`IntoIter::new(clone, MDBX_GET_CURRENT, MDBX_NEXT_DUP)`; on any
non-success status the outer sequence ends.  In the poisoned state
`Some(IntoIter::Err(err))` is yielded and the state is unchanged.
`createdHandle`/`copyStatus` are the oracle answers for the clone. -/
def IterDup.next (s : IterDup) (reply : GetReply) (createdHandle : Nat)
    (copyStatus : Int) : DupOutcome × IterDup :=
  match s with
  | .Ok cursor op =>
    let _issued := op
    let s' := IterDup.Ok cursor .NEXT_NODUP
    if reply.status = MDBX_SUCCESS then
      match RoCursor.new_at_position cursor createdHandle copyStatus with
      | .ok c => (.yield (IntoIter.new c .GET_CURRENT .NEXT_DUP), s')
      | .error e => (.panicked e, s')
    else (.stop, s')
  | .Err e => (.yield (IntoIter.Err e), .Err e)

/-! ## Iterator-constructing entry points (`Cursor` trait methods) -/

/-- `Cursor::iter` (cursor.rs). -/
def Cursor.iter (cursor : RoCursor) : Iter :=
  Iter.new cursor .NEXT .NEXT

/-- `Cursor::iter_start` (cursor.rs). -/
def Cursor.iter_start (cursor : RoCursor) : Iter :=
  Iter.new cursor .FIRST .NEXT

/-- `Cursor::iter_from` (cursor.rs): seek `MDBX_SET_RANGE(key)` (the
oracle `seek` is the engine's answer), ignore `NotFound`, poison on any
other seek error, else start at (`GET_CURRENT`, `NEXT`). -/
def Cursor.iter_from (cursor : RoCursor) (key : MDBX_val) (seek : GetReply) : Iter :=
  match Cursor.get (some key) none .SET_RANGE seek with
  | .ok _ => Iter.new cursor .GET_CURRENT .NEXT
  | .error .notFound => Iter.new cursor .GET_CURRENT .NEXT
  | .error e => Iter.Err e

/-- `Cursor::iter_dup` (cursor.rs). -/
def Cursor.iter_dup (cursor : RoCursor) : IterDup :=
  IterDup.new cursor .NEXT

/-- `Cursor::iter_dup_start` (cursor.rs). -/
def Cursor.iter_dup_start (cursor : RoCursor) : IterDup :=
  IterDup.new cursor .FIRST

/-- `Cursor::iter_dup_from` (cursor.rs): seek `MDBX_SET_RANGE(key)`,
ignore `NotFound`, poison on any other seek error, else start at
`GET_CURRENT`. -/
def Cursor.iter_dup_from (cursor : RoCursor) (key : MDBX_val) (seek : GetReply) : IterDup :=
  match Cursor.get (some key) none .SET_RANGE seek with
  | .ok _ => IterDup.new cursor .GET_CURRENT
  | .error .notFound => IterDup.new cursor .GET_CURRENT
  | .error e => IterDup.Err e

/-- `Cursor::iter_dup_of` (cursor.rs): seek `MDBX_SET(key)` (oracle
`setReply`).  On success start at (`GET_CURRENT`, `NEXT_DUP`); on
`NotFound` issue a `MDBX_LAST` seek whose result is discarded (`.ok()`,
oracle `lastReply`) and start at (`NEXT`, `NEXT`); on any other seek
error poison.  The first component records the seek opcodes issued to
the engine, in order. -/
def Cursor.iter_dup_of (cursor : RoCursor) (key : MDBX_val)
    (setReply lastReply : GetReply) : List CursorOp × Iter :=
  match Cursor.get (some key) none .SET setReply with
  | .ok _ => ([.SET], Iter.new cursor .GET_CURRENT .NEXT_DUP)
  | .error .notFound =>
    let _ignored := Cursor.get none none .LAST lastReply
    ([.SET, .LAST], Iter.new cursor .NEXT .NEXT)
  | .error e => ([.SET], Iter.Err e)

/-! ## `Database::new` (database.rs) -/

/-- Rust std `CString::new`: fails with `NulError` exactly when the
input contains an interior NUL byte; otherwise the C string is the
input bytes followed by the terminating NUL. -/
def CString.new (bytes : List Nat) : Option (List Nat) :=
  if 0 ∈ bytes then none else some (bytes ++ [0])

/-- The observable outcome of `Database::new`: an opened handle or an
engine error (each recording the name bytes passed to
`mdbx_dbi_open` — `none` is the null pointer for the unnamed table), or
a process panic (the `unwrap` on `CString::new`). -/
inductive DbNewOutcome where
  | ok (dbi : Nat) (passedName : Option (List Nat))
  | err (e : Error) (passedName : Option (List Nat))
  | panicked
deriving DecidableEq, Repr

/-- The name bytes that reached the engine, if the call got that far. -/
def DbNewOutcome.passed : DbNewOutcome → Option (Option (List Nat))
  | .ok _ n => some n
  | .err _ n => some n
  | .panicked => none

/-- `Database::new` (database.rs): encode the optional table name with
`CString::new(..).unwrap()` (the `unwrap` panics on an interior NUL),
pass the encoded name — or the null pointer — to `mdbx_dbi_open`, and
wrap the engine's status (`openStatus`) and returned table id
(`engineDbi`). -/
def Database.new (name : Option (List Nat)) (_flags : Nat)
    (openStatus : Int) (engineDbi : Nat) : DbNewOutcome :=
  match name with
  | some n =>
    match CString.new n with
    | none => .panicked
    | some c =>
      match mdbx_result openStatus with
      | .error e => .err e (some c)
      | .ok _ => .ok engineDbi (some c)
  | none =>
    match mdbx_result openStatus with
    | .error e => .err e none
    | .ok _ => .ok engineDbi none

/-! ## Theorems -/

/-- Claim C3: in the `Positioned` (`Ok`) state, every `next()` call of
`Iter` and of `IntoIter` issues the engine positioning call with the
stored first opcode `op` while the state it leaves behind already holds
`next_op` in its place — the replacement (`mem::replace`) happens
before the engine call and unconditionally, for every engine answer
`r`, including failing ones, so the following call proceeds with
`next_op` rather than retrying or stalling on the failed opcode. -/
theorem C3_op_advances_unconditionally (c : RoCursor) (op next_op : CursorOp)
    (r : GetReply) :
    (Iter.next (Iter.Ok c op next_op) r).issued = some op ∧
    (Iter.next (Iter.Ok c op next_op) r).state = Iter.Ok c next_op next_op ∧
    (IntoIter.next (IntoIter.Ok c op next_op) r).issued = some op ∧
    (IntoIter.next (IntoIter.Ok c op next_op) r).state = IntoIter.Ok c next_op next_op :=
  ⟨rfl, rfl, rfl, rfl⟩

/-- Claim C5: the `Poisoned` (`Err e`) state of both sequential
iterators is terminal: a single `next()` call returns exactly the
stored error and leaves the state unchanged, and consequently a run of
any number of `next()` calls produces that same error element at every
position and still ends in the same poisoned state. -/
theorem C5_poisoned_is_terminal (e : Error) (replies : List GetReply) :
    (∀ r, Iter.next (Iter.Err e) r = ⟨none, some (.error e), Iter.Err e⟩) ∧
    (∀ r, IntoIter.next (IntoIter.Err e) r = ⟨none, some (.error e), IntoIter.Err e⟩) ∧
    Iter.runItems (Iter.Err e) replies = replies.map (fun _ => some (.error e)) ∧
    Iter.runState (Iter.Err e) replies = Iter.Err e ∧
    IntoIter.runItems (IntoIter.Err e) replies = replies.map (fun _ => some (.error e)) ∧
    IntoIter.runState (IntoIter.Err e) replies = IntoIter.Err e := by
  refine ⟨fun r => rfl, fun r => rfl, ?_, ?_, ?_, ?_⟩ <;>
    induction replies with
    | nil => rfl
    | cons r rest ih =>
      simp [Iter.runItems, Iter.runState, IntoIter.runItems, IntoIter.runState,
        Iter.next, IntoIter.next, ih]

/-- Claim C4: in the `Positioned` (`Ok`) state of both sequential
iterators, an engine answer of `MDBX_NOTFOUND` or `MDBX_ENODATA` makes
`next()` yield nothing (end of sequence) — the status is never
surfaced as an iteration error — while any other non-success status
yields exactly one error element (the mapped status) for that call. -/
theorem C4_notfound_ends_other_errors_yield_one (c : RoCursor)
    (op next_op : CursorOp) (r : GetReply) :
    ((r.status = MDBX_NOTFOUND ∨ r.status = MDBX_ENODATA) →
      (Iter.next (Iter.Ok c op next_op) r).item = none ∧
      (IntoIter.next (IntoIter.Ok c op next_op) r).item = none) ∧
    (r.status ≠ MDBX_SUCCESS → r.status ≠ MDBX_NOTFOUND → r.status ≠ MDBX_ENODATA →
      (Iter.next (Iter.Ok c op next_op) r).item
        = some (.error (Error.from_err_code r.status)) ∧
      (IntoIter.next (IntoIter.Ok c op next_op) r).item
        = some (.error (Error.from_err_code r.status))) := by
  constructor
  · intro h
    rcases h with h | h <;>
      exact ⟨by simp [Iter.next, h, MDBX_NOTFOUND, MDBX_SUCCESS, MDBX_ENODATA],
        by simp [IntoIter.next, h, MDBX_NOTFOUND, MDBX_SUCCESS, MDBX_ENODATA]⟩
  · intro hs hn he
    exact ⟨by simp [Iter.next, hs, hn, he], by simp [IntoIter.next, hs, hn, he]⟩

/-- Witness for C4 at concrete inputs: a `MDBX_NOTFOUND` answer ends
the sequence silently, and status `5` (neither success nor a
no-more-data code) yields exactly the mapped error element. -/
theorem C4_witness :
    (Iter.next (Iter.Ok ⟨1, 2⟩ .FIRST .NEXT)
      ⟨MDBX_NOTFOUND, ⟨0, 0⟩, ⟨0, 0⟩, .ok [], .ok []⟩).item = none ∧
    (Iter.next (Iter.Ok ⟨1, 2⟩ .FIRST .NEXT)
      ⟨5, ⟨0, 0⟩, ⟨0, 0⟩, .ok [], .ok []⟩).item
        = some (.error (Error.from_err_code 5)) := by
  refine ⟨(C4_notfound_ends_other_errors_yield_one ⟨1, 2⟩ .FIRST .NEXT
      ⟨MDBX_NOTFOUND, ⟨0, 0⟩, ⟨0, 0⟩, .ok [], .ok []⟩).1 (Or.inl rfl) |>.1, ?_⟩
  exact (C4_notfound_ends_other_errors_yield_one ⟨1, 2⟩ .FIRST .NEXT
      ⟨5, ⟨0, 0⟩, ⟨0, 0⟩, .ok [], .ok []⟩).2
    (by decide) (by decide) (by decide) |>.1

/-- Claim C1: the three iterator constructors that perform a seek step
(`iter_from` and `iter_dup_from` with `MDBX_SET_RANGE`, `iter_dup_of`
with `MDBX_SET`) are infallible: when the seek step fails with any
error other than `NotFound` the returned iterator is the poisoned
(`Err`) one, whose every subsequent element is exactly that single
error; when the seek step succeeds or fails with `NotFound` a live
`Positioned` (`Ok`) iterator is returned.  (In the embedding the
constructors are total functions into the iterator types, so
infallibility at the type level is by construction.) -/
theorem C1_seek_constructors_infallible (c : RoCursor) (key : MDBX_val)
    (r rL : GetReply) :
    (∀ code, Cursor.get (some key) none .SET_RANGE r = .error (.other code) →
      Cursor.iter_from c key r = Iter.Err (.other code) ∧
      Cursor.iter_dup_from c key r = IterDup.Err (.other code) ∧
      (∀ reply, Iter.next (Iter.Err (.other code)) reply
        = ⟨none, some (.error (.other code)), Iter.Err (.other code)⟩) ∧
      (∀ reply h cs, IterDup.next (IterDup.Err (.other code)) reply h cs
        = (.yield (IntoIter.Err (.other code)), IterDup.Err (.other code)))) ∧
    ((Cursor.get (some key) none .SET_RANGE r = .error .notFound ∨
        ∃ v, Cursor.get (some key) none .SET_RANGE r = .ok v) →
      Cursor.iter_from c key r = Iter.Ok c .GET_CURRENT .NEXT ∧
      Cursor.iter_dup_from c key r = IterDup.Ok c .GET_CURRENT) ∧
    (∀ code, Cursor.get (some key) none .SET r = .error (.other code) →
      (Cursor.iter_dup_of c key r rL).2 = Iter.Err (.other code) ∧
      (∀ reply, Iter.next (Iter.Err (.other code)) reply
        = ⟨none, some (.error (.other code)), Iter.Err (.other code)⟩)) ∧
    ((Cursor.get (some key) none .SET r = .error .notFound ∨
        ∃ v, Cursor.get (some key) none .SET r = .ok v) →
      ∃ op next_op, (Cursor.iter_dup_of c key r rL).2 = Iter.Ok c op next_op) := by
  refine ⟨?_, ?_, ?_, ?_⟩
  · intro code hg
    exact ⟨by simp [Cursor.iter_from, hg],
      by simp [Cursor.iter_dup_from, hg],
      fun reply => rfl, fun reply h cs => rfl⟩
  · rintro (hg | ⟨v, hg⟩) <;>
      exact ⟨by simp [Cursor.iter_from, Iter.new, hg],
        by simp [Cursor.iter_dup_from, IterDup.new, hg]⟩
  · intro code hg
    exact ⟨by simp [Cursor.iter_dup_of, hg], fun reply => rfl⟩
  · rintro (hg | ⟨v, hg⟩)
    · exact ⟨.NEXT, .NEXT, by simp [Cursor.iter_dup_of, Iter.new, hg]⟩
    · exact ⟨.GET_CURRENT, .NEXT_DUP, by simp [Cursor.iter_dup_of, Iter.new, hg]⟩

/-- Witness for C1 at concrete inputs: a seek answered with status `5`
poisons `iter_from` and `iter_dup_from` with the mapped error, while a
seek answered with `MDBX_NOTFOUND` still returns live `Positioned`
iterators from all three constructors. -/
theorem C1_witness :
    Cursor.iter_from ⟨1, 2⟩ ⟨4, 100⟩ ⟨5, ⟨0, 0⟩, ⟨0, 0⟩, .ok [], .ok []⟩
      = Iter.Err (.other 5) ∧
    Cursor.iter_dup_from ⟨1, 2⟩ ⟨4, 100⟩ ⟨5, ⟨0, 0⟩, ⟨0, 0⟩, .ok [], .ok []⟩
      = IterDup.Err (.other 5) ∧
    Cursor.iter_from ⟨1, 2⟩ ⟨4, 100⟩ ⟨MDBX_NOTFOUND, ⟨0, 0⟩, ⟨0, 0⟩, .ok [], .ok []⟩
      = Iter.Ok ⟨1, 2⟩ .GET_CURRENT .NEXT ∧
    ∃ op next_op,
      (Cursor.iter_dup_of ⟨1, 2⟩ ⟨4, 100⟩
        ⟨MDBX_NOTFOUND, ⟨0, 0⟩, ⟨0, 0⟩, .ok [], .ok []⟩
        ⟨0, ⟨0, 0⟩, ⟨0, 0⟩, .ok [], .ok []⟩).2 = Iter.Ok ⟨1, 2⟩ op next_op := by
  have h1 := C1_seek_constructors_infallible ⟨1, 2⟩ ⟨4, 100⟩
    ⟨5, ⟨0, 0⟩, ⟨0, 0⟩, .ok [], .ok []⟩ ⟨0, ⟨0, 0⟩, ⟨0, 0⟩, .ok [], .ok []⟩
  have h2 := C1_seek_constructors_infallible ⟨1, 2⟩ ⟨4, 100⟩
    ⟨MDBX_NOTFOUND, ⟨0, 0⟩, ⟨0, 0⟩, .ok [], .ok []⟩
    ⟨0, ⟨0, 0⟩, ⟨0, 0⟩, .ok [], .ok []⟩
  exact ⟨(h1.1 5 (by decide)).1, (h1.1 5 (by decide)).2.1,
    (h2.2.1 (Or.inl (by decide))).1, h2.2.2.2 (Or.inl (by decide))⟩

/-- Claim C2: whenever the engine answers a `Cursor::get` positioning
call with success (and the view construction goes through, so the call
returns `Ok out`), the result always carries the resulting value view
(the frozen data slot), and carries the resulting key view exactly when
the key changed — i.e. when the engine moved the key slot's base
pointer away from the caller-supplied one; when the pointer is
unchanged (as after a `SET` with a caller-supplied key, which the
engine answers without touching the key slot) the key component is
`None`, and any returned key view is the frozen key slot. -/
theorem C2_get_returns_key_only_if_changed (key data : Option MDBX_val)
    (op : CursorOp) (r : GetReply) (out : Option Bytes × Bytes) :
    r.status = MDBX_SUCCESS →
    Cursor.get key data op r = .ok out →
    r.freezeData = .ok out.2 ∧
    (out.1.isSome ↔ (slice_to_val key).iov_base ≠ r.keyVal.iov_base) ∧
    ((slice_to_val key).iov_base = r.keyVal.iov_base → out.1 = none) ∧
    (∀ b, out.1 = some b → r.freezeKey = .ok b) := by
  intro hs hg
  rw [Cursor.get] at hg
  simp only [mdbx_result, hs, if_pos rfl] at hg
  by_cases hp : (slice_to_val key).iov_base = r.keyVal.iov_base
  · simp only [hp, ne_eq, not_true_eq_false, if_neg, ite_false] at hg
    rcases hf : r.freezeData with e | d <;> rw [hf] at hg
    · exact absurd hg (by simp)
    · have hout : out = (none, d) := by
        have := hg
        simpa using this.symm
      subst hout
      refine ⟨rfl, by simp [hp], fun _ => rfl, fun b hb => by simp at hb⟩
  · simp only [hp, ne_eq, not_false_eq_true, if_pos, ite_true] at hg
    rcases hk : r.freezeKey with e | kb <;> rw [hk] at hg
    · exact absurd hg (by simp)
    · rcases hf : r.freezeData with e | d <;> rw [hf] at hg
      · exact absurd hg (by simp)
      · have hout : out = (some kb, d) := by
          have := hg
          simpa using this.symm
        subst hout
        exact ⟨rfl, by simp [hp], fun hc => absurd hc hp,
          fun b hb => by simp at hb; rw [hb]⟩

/-- Witness for C2 at a concrete input: a successful `SET` whose reply
leaves the key pointer at the caller's key yields `(None, value)`. -/
theorem C2_witness :
    (⟨0, ⟨4, 100⟩, ⟨4, 200⟩, Except.ok [9], Except.ok [1, 2]⟩ : GetReply).freezeData
        = .ok ([1, 2] : Bytes) ∧
    ((none : Option Bytes), ([1, 2] : Bytes)).1 = none := by
  have h := C2_get_returns_key_only_if_changed (some ⟨4, 100⟩) none .SET
    ⟨0, ⟨4, 100⟩, ⟨4, 200⟩, .ok [9], .ok [1, 2]⟩ (none, [1, 2]) rfl (by decide)
  exact ⟨h.1, h.2.2.1 rfl⟩

/-- Claim C6: `iter_dup_of` first seeks `MDBX_SET(key)`.  A successful
seek returns the sequential iterator configured with first opcode
`GET_CURRENT` and subsequent opcode `NEXT_DUP`; a `NotFound` seek
instead issues a `MDBX_LAST` seek — whose outcome is discarded, so the
result is the same for every answer to it — and returns a
forward-moving iterator with first and subsequent opcode `NEXT`; any
other seek error returns the poisoned iterator. -/
theorem C6_iter_dup_of_protocol (c : RoCursor) (key : MDBX_val)
    (rS rL : GetReply) :
    ((∃ v, Cursor.get (some key) none .SET rS = .ok v) →
      Cursor.iter_dup_of c key rS rL = ([.SET], Iter.Ok c .GET_CURRENT .NEXT_DUP)) ∧
    (Cursor.get (some key) none .SET rS = .error .notFound →
      Cursor.iter_dup_of c key rS rL = ([.SET, .LAST], Iter.Ok c .NEXT .NEXT)) ∧
    (∀ code, Cursor.get (some key) none .SET rS = .error (.other code) →
      Cursor.iter_dup_of c key rS rL = ([.SET], Iter.Err (.other code))) ∧
    (∀ rL', Cursor.iter_dup_of c key rS rL = Cursor.iter_dup_of c key rS rL') := by
  refine ⟨?_, ?_, ?_, ?_⟩
  · rintro ⟨v, hg⟩
    simp [Cursor.iter_dup_of, Iter.new, hg]
  · intro hg
    simp [Cursor.iter_dup_of, Iter.new, hg]
  · intro code hg
    simp [Cursor.iter_dup_of, hg]
  · intro rL'
    rcases hg : Cursor.get (some key) none .SET rS with e | v
    · rcases e with _ | code <;> simp [Cursor.iter_dup_of, hg]
    · simp [Cursor.iter_dup_of, hg]

/-- Witness for C6 at concrete inputs: a `NotFound` `SET` seek gives
the `(SET, LAST)` seek trace and the `(NEXT, NEXT)` iterator, a
successful one gives `(GET_CURRENT, NEXT_DUP)`, and the `LAST` answer
is irrelevant. -/
theorem C6_witness :
    Cursor.iter_dup_of ⟨1, 2⟩ ⟨4, 100⟩
      ⟨MDBX_NOTFOUND, ⟨0, 0⟩, ⟨0, 0⟩, .ok [], .ok []⟩
      ⟨0, ⟨0, 0⟩, ⟨0, 0⟩, .ok [], .ok []⟩
      = ([.SET, .LAST], Iter.Ok ⟨1, 2⟩ .NEXT .NEXT) ∧
    Cursor.iter_dup_of ⟨1, 2⟩ ⟨4, 100⟩
      ⟨0, ⟨4, 100⟩, ⟨4, 200⟩, .ok [9], .ok [1]⟩
      ⟨0, ⟨0, 0⟩, ⟨0, 0⟩, .ok [], .ok []⟩
      = ([.SET], Iter.Ok ⟨1, 2⟩ .GET_CURRENT .NEXT_DUP) ∧
    Cursor.iter_dup_of ⟨1, 2⟩ ⟨4, 100⟩
      ⟨MDBX_NOTFOUND, ⟨0, 0⟩, ⟨0, 0⟩, .ok [], .ok []⟩
      ⟨0, ⟨0, 0⟩, ⟨0, 0⟩, .ok [], .ok []⟩
      = Cursor.iter_dup_of ⟨1, 2⟩ ⟨4, 100⟩
        ⟨MDBX_NOTFOUND, ⟨0, 0⟩, ⟨0, 0⟩, .ok [], .ok []⟩
        ⟨5, ⟨1, 1⟩, ⟨1, 1⟩, .ok [7], .ok [8]⟩ := by
  have h1 := C6_iter_dup_of_protocol ⟨1, 2⟩ ⟨4, 100⟩
    ⟨MDBX_NOTFOUND, ⟨0, 0⟩, ⟨0, 0⟩, .ok [], .ok []⟩
    ⟨0, ⟨0, 0⟩, ⟨0, 0⟩, .ok [], .ok []⟩
  have h2 := C6_iter_dup_of_protocol ⟨1, 2⟩ ⟨4, 100⟩
    ⟨0, ⟨4, 100⟩, ⟨4, 200⟩, .ok [9], .ok [1]⟩
    ⟨0, ⟨0, 0⟩, ⟨0, 0⟩, .ok [], .ok []⟩
  exact ⟨h1.2.1 (by decide), h2.1 ⟨(none, [1]), by decide⟩,
    h1.2.2.2 ⟨5, ⟨1, 1⟩, ⟨1, 1⟩, .ok [7], .ok [8]⟩⟩

/-- Claim C10: `<RoCursor as Clone>::clone` returns a cursor exactly
when the engine-side position copy into the freshly created native
resource succeeds; on any engine error during the copy it panics (the
`unwrap` in `clone`) instead of returning or surfacing an error — so
`clone` is not total over engine outcomes. -/
theorem C10_clone_panics_on_copy_error (c : RoCursor) (createdHandle : Nat)
    (copyStatus : Int) :
    (copyStatus = MDBX_SUCCESS →
      RoCursor.clone c createdHandle copyStatus = .ok ⟨createdHandle, c.db⟩) ∧
    (copyStatus ≠ MDBX_SUCCESS →
      RoCursor.clone c createdHandle copyStatus
        = .panicked (Error.from_err_code copyStatus)) := by
  constructor
  · intro hs
    simp [RoCursor.clone, RoCursor.new_at_position, mdbx_result, hs]
  · intro hs
    simp [RoCursor.clone, RoCursor.new_at_position, mdbx_result, hs]

/-- Witness for C10 at concrete inputs: a successful copy clones the
cursor; copy status `5` makes `clone` panic with the mapped error. -/
theorem C10_witness :
    RoCursor.clone ⟨1, 2⟩ 7 MDBX_SUCCESS = .ok ⟨7, 2⟩ ∧
    RoCursor.clone ⟨1, 2⟩ 7 5 = .panicked (Error.from_err_code 5) := by
  exact ⟨(C10_clone_panics_on_copy_error ⟨1, 2⟩ 7 MDBX_SUCCESS).1 rfl,
    (C10_clone_panics_on_copy_error ⟨1, 2⟩ 7 5).2 (by decide)⟩

/-- Counterexample to claim C7: when the outer step of `IterDup::next`
succeeds (engine status `MDBX_SUCCESS`) but cloning the cursor at the
current position fails (copy status `5`), the call panics — the
`unwrap` in `RoCursor::new_at_position(..).unwrap()` — instead of
yielding the failure as an error element of the outer sequence. -/
theorem C7_counterexample :
    (IterDup.next (IterDup.Ok ⟨1, 2⟩ .NEXT)
      ⟨0, ⟨0, 0⟩, ⟨0, 0⟩, .ok [], .ok []⟩ 7 5).1
      = DupOutcome.panicked (Error.other 5) ∧
    (IterDup.next (IterDup.Ok ⟨1, 2⟩ .NEXT)
      ⟨0, ⟨0, 0⟩, ⟨0, 0⟩, .ok [], .ok []⟩ 7 5).1
      ≠ DupOutcome.yield (IntoIter.Err (Error.other 5)) := by
  exact ⟨rfl, by decide⟩

/-- Claim C7 as amended: on each successful outer step of
`IterDup::next` a new read-only cursor is created at the current
position (`RoCursor::new_at_position`, taking the current cursor's
database and the freshly created native handle) and wrapped in a
sequential iterator configured with (`GET_CURRENT`, `NEXT_DUP`); but if
cloning the cursor fails, the call panics via `unwrap` with the mapped
copy error — the failure aborts the process instead of being surfaced
as an error element of the outer sequence. -/
theorem C7_amended_clone_failure_panics_not_yielded (c : RoCursor)
    (op : CursorOp) (r : GetReply) (createdHandle : Nat) (copyStatus : Int) :
    r.status = MDBX_SUCCESS →
    ((copyStatus = MDBX_SUCCESS →
      IterDup.next (IterDup.Ok c op) r createdHandle copyStatus
        = (.yield (IntoIter.Ok ⟨createdHandle, c.db⟩ .GET_CURRENT .NEXT_DUP),
           IterDup.Ok c .NEXT_NODUP)) ∧
     (copyStatus ≠ MDBX_SUCCESS →
      IterDup.next (IterDup.Ok c op) r createdHandle copyStatus
        = (.panicked (Error.from_err_code copyStatus),
           IterDup.Ok c .NEXT_NODUP))) := by
  intro hs
  constructor
  · intro hc
    simp [IterDup.next, IntoIter.new, RoCursor.new_at_position, mdbx_result, hs, hc]
  · intro hc
    simp [IterDup.next, RoCursor.new_at_position, mdbx_result, hs, hc]

/-- Witness for the amended C7 at concrete inputs: with a successful
outer step, copy status `0` yields the inner `(GET_CURRENT, NEXT_DUP)`
iterator over the cloned cursor, and copy status `5` panics. -/
theorem C7_amended_witness :
    IterDup.next (IterDup.Ok ⟨1, 2⟩ .NEXT)
      ⟨0, ⟨0, 0⟩, ⟨0, 0⟩, .ok [], .ok []⟩ 7 0
      = (.yield (IntoIter.Ok ⟨7, 2⟩ .GET_CURRENT .NEXT_DUP),
         IterDup.Ok ⟨1, 2⟩ .NEXT_NODUP) ∧
    IterDup.next (IterDup.Ok ⟨1, 2⟩ .NEXT)
      ⟨0, ⟨0, 0⟩, ⟨0, 0⟩, .ok [], .ok []⟩ 7 5
      = (.panicked (Error.from_err_code 5), IterDup.Ok ⟨1, 2⟩ .NEXT_NODUP) := by
  exact ⟨(C7_amended_clone_failure_panics_not_yielded ⟨1, 2⟩ .NEXT
      ⟨0, ⟨0, 0⟩, ⟨0, 0⟩, .ok [], .ok []⟩ 7 0 rfl).1 rfl,
    (C7_amended_clone_failure_panics_not_yielded ⟨1, 2⟩ .NEXT
      ⟨0, ⟨0, 0⟩, ⟨0, 0⟩, .ok [], .ok []⟩ 7 5 rfl).2 (by decide)⟩

/-- Claim C8: opening a table whose name contains an embedded NUL byte
fails deterministically — `CString::new(..).unwrap()` panics before
anything reaches the engine, for every engine behaviour — rather than
truncating the name at the NUL; and whenever a name does reach the
engine it is passed as NUL-terminated text (the bytes followed by the
terminating NUL). -/
theorem C8_embedded_nul_fails_not_truncates (name : List Nat) (flags : Nat)
    (openStatus : Int) (engineDbi : Nat) :
    (0 ∈ name →
      Database.new (some name) flags openStatus engineDbi = .panicked) ∧
    (0 ∉ name →
      (Database.new (some name) flags openStatus engineDbi).passed
        = some (some (name ++ [0]))) := by
  constructor
  · intro h
    simp [Database.new, CString.new, h]
  · intro h
    rcases hr : mdbx_result openStatus with e | u <;>
      simp [Database.new, CString.new, DbNewOutcome.passed, h, hr]

/-- Witness for C8 at concrete inputs: the name `[107, 0, 101]`
(an embedded NUL) panics for any engine status, while `[107, 101]`
reaches the engine as `[107, 101, 0]`. -/
theorem C8_witness :
    Database.new (some [107, 0, 101]) 0 0 3 = .panicked ∧
    (Database.new (some [107, 101]) 0 0 3).passed = some (some [107, 101, 0]) := by
  exact ⟨(C8_embedded_nul_fails_not_truncates [107, 0, 101] 0 0 3).1 (by decide),
    (C8_embedded_nul_fails_not_truncates [107, 101] 0 0 3).2 (by decide)⟩

end LibmdbxRs
